import Mathlib

/-!
Shallow embedding of the Smart Attendance server (server.js): the four-table
data model, the session manager (`POST /api/session`), the check-in validator
(`POST /api/checkin`), the faculty management endpoints, and the CSV report
(`GET /report/csv`). Requests are modelled as pure functions on an explicit
database state; the current time and the generated uuids are parameters.
-/

deriving instance DecidableEq for Except

namespace Attend

/-- A row of the `users` table (id TEXT PRIMARY KEY, name, role). -/
structure User where
  id : String
  name : String
  role : String
deriving DecidableEq, Repr

/-- A row of the `sections` table. -/
structure Section where
  id : String
  code : String
  title : String
  faculty_id : String
deriving DecidableEq, Repr

/-- A row of the `sessions` table; timestamps are Unix milliseconds. -/
structure Session where
  id : String
  section_id : String
  token : String
  start_at : Int
  expires_at : Int
deriving DecidableEq, Repr

/-- A row of the `attendance` table. -/
structure Attendance where
  id : String
  session_id : String
  student_id : String
  status : String
  checkin_time : Int
  method : String
deriving DecidableEq, Repr

/-- The whole database state: the four tables, rows in insertion order. -/
structure DB where
  users : List User
  sections : List Section
  sessions : List Session
  attendance : List Attendance
deriving DecidableEq, Repr

/-- `SELECT * FROM sessions WHERE id=?` via `getSql` (first matching row). -/
def findSession (db : DB) (sessionId : String) : Option Session :=
  db.sessions.find? (fun s => s.id == sessionId)

/-- `SELECT * FROM users WHERE id=? AND role='student'` via `getSql`. -/
def findStudent (db : DB) (studentId : String) : Option User :=
  db.users.find? (fun u => u.id == studentId && u.role == "student")

/-- `SELECT * FROM users WHERE id=? AND role='faculty'` via `getSql`. -/
def findFaculty (db : DB) (facultyId : String) : Option User :=
  db.users.find? (fun u => u.id == facultyId && u.role == "faculty")

/-- `SELECT * FROM sections WHERE id=?` via `getSql`. -/
def findSection (db : DB) (sectionId : String) : Option Section :=
  db.sections.find? (fun sec => sec.id == sectionId)

/-- `SELECT * FROM attendance WHERE session_id=? AND student_id=?` via `getSql`. -/
def findAttendance (db : DB) (sessionId studentId : String) : Option Attendance :=
  db.attendance.find? (fun a => a.session_id == sessionId && a.student_id == studentId)

/-- The failure outcomes of `POST /api/checkin`. -/
inductive CheckinError
  | MissingParams
  | SessionNotFound
  | InvalidToken
  | SessionExpired
  | StudentNotFound
  | DuplicateCheckin
deriving DecidableEq, Repr

/-- The HTTP status the handler attaches to each check-in failure. -/
def checkinErrorStatus : CheckinError → Nat
  | CheckinError.MissingParams => 400
  | CheckinError.SessionNotFound => 404
  | CheckinError.InvalidToken => 403
  | CheckinError.SessionExpired => 403
  | CheckinError.StudentNotFound => 403
  | CheckinError.DuplicateCheckin => 409

/-- The HTTP status of a check-in response (200 on success). -/
def checkinStatus : Except CheckinError Attendance → Nat
  | Except.ok _ => 200
  | Except.error e => checkinErrorStatus e

/-- `POST /api/checkin` {sessionId, token, studentId}: the check-in validator.
`now` is `Date.now()`, `recId` the uuid generated for the new row. Returns the
response (new attendance row on success) and the resulting database state. -/
def checkin (db : DB) (now : Int) (sessionId token studentId recId : String) :
    Except CheckinError Attendance × DB :=
  if sessionId == "" || token == "" || studentId == "" then
    (Except.error CheckinError.MissingParams, db)
  else
    match findSession db sessionId with
    | none => (Except.error CheckinError.SessionNotFound, db)
    | some s =>
      if s.token != token then (Except.error CheckinError.InvalidToken, db)
      else if now > s.expires_at then (Except.error CheckinError.SessionExpired, db)
      else
        match findStudent db studentId with
        | none => (Except.error CheckinError.StudentNotFound, db)
        | some _ =>
          match findAttendance db sessionId studentId with
          | some _ => (Except.error CheckinError.DuplicateCheckin, db)
          | none =>
            let a : Attendance :=
              { id := recId, session_id := sessionId, student_id := studentId,
                status := "present", checkin_time := now, method := "qr" }
            (Except.ok a, { db with attendance := db.attendance ++ [a] })

/-- The failure outcomes of `POST /api/session` (all returned with status 400). -/
inductive SessionError
  | MissingFields
  | InvalidFaculty
  | InvalidSection
deriving DecidableEq, Repr

/-- The effective duration in minutes: the source computes
`parseInt(durationMinutes || 30, 10)`, so a missing or zero (falsy) duration
falls back to 30. -/
def effectiveDuration (durationMinutes : Option Int) : Int :=
  match durationMinutes with
  | none => 30
  | some d => if d == 0 then 30 else d

/-- `POST /api/session` {facultyId, sectionId, durationMinutes}: the session
manager. `now` is `Date.now()`; `newId` and `newToken` are the generated uuid
and token. `durationMinutes` is the optional JSON number. Returns the response
and the resulting database state. -/
def createSession (db : DB) (now : Int) (facultyId sectionId : String)
    (durationMinutes : Option Int) (newId newToken : String) :
    Except SessionError Session × DB :=
  if facultyId == "" || sectionId == "" then
    (Except.error SessionError.MissingFields, db)
  else
    match findFaculty db facultyId with
    | none => (Except.error SessionError.InvalidFaculty, db)
    | some _ =>
      match findSection db sectionId with
      | none => (Except.error SessionError.InvalidSection, db)
      | some _ =>
        let dur : Int := effectiveDuration durationMinutes
        let s : Session :=
          { id := newId, section_id := sectionId, token := newToken,
            start_at := now, expires_at := now + dur * 60000 }
        (Except.ok s, { db with sessions := db.sessions ++ [s] })

/-- `POST /api/faculty/add` {id, name}: inserts a user with role faculty. -/
def facultyAdd (db : DB) (id name : String) : Except String Unit × DB :=
  if id == "" || name == "" then (Except.error "id & name required", db)
  else (Except.ok (), { db with users := db.users ++ [{ id := id, name := name, role := "faculty" }] })

/-- `DELETE /api/faculty/delete/:id`: runs
`DELETE FROM users WHERE id=? AND role="faculty"` and always answers
`{success:true}`. -/
def facultyDelete (db : DB) (id : String) : Bool × DB :=
  (true, { db with users := db.users.filter (fun u => !(u.id == id && u.role == "faculty")) })

/-- One output row of the CSV report (`checkin_time` kept as the stored
millisecond timestamp; ISO-8601 rendering is presentation only). -/
structure CsvRow where
  attendance_id : String
  session_id : String
  section_id : String
  student_id : String
  status : String
  checkin_time : Int
  method : String
deriving DecidableEq, Repr

/-- The response of `GET /report/csv`: the literal `No sessions` body, or the
CSV attachment. -/
inductive CsvResult
  | noSessions
  | csv (rows : List CsvRow)
deriving DecidableEq, Repr

/-- The `LEFT JOIN sessions s ON s.id=a.session_id` projection of `section_id`
(empty string models the NULL of a join miss). -/
def joinedSectionId (db : DB) (sessionId : String) : String :=
  match findSession db sessionId with
  | some s => s.section_id
  | none => ""

/-- `GET /report/csv?section=<id>?`: selects session ids (filtered by section
when the `section` query value is truthy), answers `No sessions` when none
match, otherwise the attendance rows of those sessions. -/
def reportCsv (db : DB) (sectionQ : Option String) : CsvResult :=
  let ids : List String :=
    match sectionQ with
    | some sec =>
      if sec != "" then (db.sessions.filter (fun s => s.section_id == sec)).map Session.id
      else db.sessions.map Session.id
    | none => db.sessions.map Session.id
  if ids.isEmpty then CsvResult.noSessions
  else
    CsvResult.csv ((db.attendance.filter (fun a => ids.contains a.session_id)).map
      (fun a =>
        { attendance_id := a.id, session_id := a.session_id,
          section_id := joinedSectionId db a.session_id, student_id := a.student_id,
          status := a.status, checkin_time := a.checkin_time, method := a.method }))

/-- The uniqueness invariant on attendance: at most one row per
(session_id, student_id) pair. -/
def AtMostOnePerPair (db : DB) : Prop :=
  ∀ sid stud : String,
    db.attendance.countP (fun a => a.session_id == sid && a.student_id == stud) ≤ 1

/-- The seeded demo user `faculty1`. -/
def demoFaculty : User := { id := "faculty1", name := "Prof. Alice", role := "faculty" }

/-- The seeded demo user `stu1`. -/
def demoStudent : User := { id := "stu1", name := "Bob Student", role := "student" }

/-- The seeded demo section `sec101`. -/
def demoSection : Section := { id := "sec101", code := "CS101", title := "Intro to CS", faculty_id := "faculty1" }

/-- A concrete session of `sec101` expiring at time 1000. -/
def demoSession : Session :=
  { id := "sess1", section_id := "sec101", token := "tok1", start_at := 0, expires_at := 1000 }

/-- A concrete database: the seeded users and section plus `demoSession`. -/
def demoDb : DB :=
  { users := [demoFaculty, demoStudent], sections := [demoSection],
    sessions := [demoSession], attendance := [] }

/-!  Helper lemmas shared by the claim theorems.  -/

/-- Exhaustive case analysis of the check-in handler: exactly one of the seven
branches of `POST /api/checkin` applies, and each determines both the response
and the resulting database. -/
theorem checkin_spec (db : DB) (now : Int) (sessionId token studentId recId : String) :
    ((sessionId == "" || token == "" || studentId == "") = true ∧
      checkin db now sessionId token studentId recId =
        (Except.error CheckinError.MissingParams, db)) ∨
    ((sessionId == "" || token == "" || studentId == "") = false ∧
      findSession db sessionId = none ∧
      checkin db now sessionId token studentId recId =
        (Except.error CheckinError.SessionNotFound, db)) ∨
    (∃ s, (sessionId == "" || token == "" || studentId == "") = false ∧
      findSession db sessionId = some s ∧ s.token ≠ token ∧
      checkin db now sessionId token studentId recId =
        (Except.error CheckinError.InvalidToken, db)) ∨
    (∃ s, (sessionId == "" || token == "" || studentId == "") = false ∧
      findSession db sessionId = some s ∧ s.token = token ∧ now > s.expires_at ∧
      checkin db now sessionId token studentId recId =
        (Except.error CheckinError.SessionExpired, db)) ∨
    (∃ s, (sessionId == "" || token == "" || studentId == "") = false ∧
      findSession db sessionId = some s ∧ s.token = token ∧ ¬ now > s.expires_at ∧
      findStudent db studentId = none ∧
      checkin db now sessionId token studentId recId =
        (Except.error CheckinError.StudentNotFound, db)) ∨
    (∃ s u a0, (sessionId == "" || token == "" || studentId == "") = false ∧
      findSession db sessionId = some s ∧ s.token = token ∧ ¬ now > s.expires_at ∧
      findStudent db studentId = some u ∧
      findAttendance db sessionId studentId = some a0 ∧
      checkin db now sessionId token studentId recId =
        (Except.error CheckinError.DuplicateCheckin, db)) ∨
    (∃ s u, (sessionId == "" || token == "" || studentId == "") = false ∧
      findSession db sessionId = some s ∧ s.token = token ∧ ¬ now > s.expires_at ∧
      findStudent db studentId = some u ∧
      findAttendance db sessionId studentId = none ∧
      checkin db now sessionId token studentId recId =
        (Except.ok (⟨recId, sessionId, studentId, "present", now, "qr"⟩ : Attendance),
         { db with attendance := db.attendance ++
            [⟨recId, sessionId, studentId, "present", now, "qr"⟩] })) := by
  unfold checkin
  split
  · next h0 => exact Or.inl ⟨h0, rfl⟩
  · next h0 =>
    have h0f : (sessionId == "" || token == "" || studentId == "") = false := by
      simpa using h0
    split
    · next hs => exact Or.inr (Or.inl ⟨h0f, hs, rfl⟩)
    · next s hs =>
      split
      · next htk =>
        exact Or.inr (Or.inr (Or.inl ⟨s, h0f, hs, by simpa using htk, rfl⟩))
      · next htk =>
        have htk2 : s.token = token := by simpa using htk
        split
        · next hexp =>
          exact Or.inr (Or.inr (Or.inr (Or.inl ⟨s, h0f, hs, htk2, hexp, rfl⟩)))
        · next hexp =>
          split
          · next hstu =>
            exact Or.inr (Or.inr (Or.inr (Or.inr (Or.inl
              ⟨s, h0f, hs, htk2, hexp, hstu, rfl⟩))))
          · next u hu =>
            split
            · next a0 ha =>
              exact Or.inr (Or.inr (Or.inr (Or.inr (Or.inr (Or.inl
                ⟨s, u, a0, h0f, hs, htk2, hexp, hu, ha, rfl⟩)))))
            · next ha =>
              exact Or.inr (Or.inr (Or.inr (Or.inr (Or.inr (Or.inr
                ⟨s, u, h0f, hs, htk2, hexp, hu, ha, rfl⟩)))))

/-- A failed check-in leaves the database untouched. -/
theorem checkin_error_unchanged (db : DB) (now : Int)
    (sessionId token studentId recId : String) (e : CheckinError)
    (h : (checkin db now sessionId token studentId recId).1 = Except.error e) :
    (checkin db now sessionId token studentId recId).2 = db := by
  rcases checkin_spec db now sessionId token studentId recId with
    ⟨_, hc⟩ | ⟨_, _, hc⟩ | ⟨s, _, _, _, hc⟩ | ⟨s, _, _, _, _, hc⟩ |
    ⟨s, _, _, _, _, _, hc⟩ | ⟨s, u, a0, _, _, _, _, _, _, hc⟩ |
    ⟨s, u, _, _, _, _, _, _, hc⟩
  · rw [hc]
  · rw [hc]
  · rw [hc]
  · rw [hc]
  · rw [hc]
  · rw [hc]
  · rw [hc] at h
    simp at h

/-- A successful check-in implies every validation passed, pins down the row
that was inserted, and appends exactly that row to the attendance table. -/
theorem checkin_ok_facts (db : DB) (now : Int)
    (sessionId token studentId recId : String) (a : Attendance)
    (h : (checkin db now sessionId token studentId recId).1 = Except.ok a) :
    sessionId ≠ "" ∧ token ≠ "" ∧ studentId ≠ "" ∧
    (∃ s, findSession db sessionId = some s ∧ s.token = token ∧ ¬ now > s.expires_at) ∧
    (∃ u, findStudent db studentId = some u) ∧
    findAttendance db sessionId studentId = none ∧
    a = ⟨recId, sessionId, studentId, "present", now, "qr"⟩ ∧
    (checkin db now sessionId token studentId recId).2 =
      { db with attendance := db.attendance ++ [a] } := by
  rcases checkin_spec db now sessionId token studentId recId with
    ⟨_, hc⟩ | ⟨_, _, hc⟩ | ⟨s, _, _, _, hc⟩ | ⟨s, _, _, _, _, hc⟩ |
    ⟨s, _, _, _, _, _, hc⟩ | ⟨s, u, a0, _, _, _, _, _, _, hc⟩ |
    ⟨s, u, h0, hs, htk, hexp, hu, hatt, hc⟩
  · rw [hc] at h; simp at h
  · rw [hc] at h; simp at h
  · rw [hc] at h; simp at h
  · rw [hc] at h; simp at h
  · rw [hc] at h; simp at h
  · rw [hc] at h; simp at h
  · rw [hc] at h
    simp only [Except.ok.injEq] at h
    simp only [Bool.or_eq_false_iff, beq_eq_false_iff_ne] at h0
    subst h
    exact ⟨by tauto, by tauto, by tauto, ⟨s, hs, htk, hexp⟩, ⟨u, hu⟩, hatt, rfl, by rw [hc]⟩

/-- Appending a row keeps a per-predicate count at most one, provided the count
was already zero whenever the new row matches. -/
theorem countP_le_one_append (l : List Attendance) (x : Attendance)
    (p : Attendance → Bool) (hl : l.countP p ≤ 1)
    (hx : p x = true → l.countP p = 0) :
    (l ++ [x]).countP p ≤ 1 := by
  rw [List.countP_append, List.countP_cons, List.countP_nil]
  by_cases h : p x = true
  · rw [hx h]
    simp [h]
  · simp only [Bool.not_eq_true] at h
    simp [h]
    exact hl

/-- The session manager never touches the attendance table. -/
theorem createSession_attendance_unchanged (db : DB) (now : Int)
    (facultyId sectionId : String) (dur : Option Int) (newId newToken : String) :
    (createSession db now facultyId sectionId dur newId newToken).2.attendance =
      db.attendance := by
  unfold createSession
  split
  · rfl
  · split
    · rfl
    · split
      · rfl
      · rfl

/-- Adding a faculty user never touches the attendance table. -/
theorem facultyAdd_attendance_unchanged (db : DB) (id name : String) :
    (facultyAdd db id name).2.attendance = db.attendance := by
  unfold facultyAdd
  split
  · rfl
  · rfl

/-- The uniqueness invariant only depends on the attendance table. -/
theorem atMostOne_of_attendance_eq (db db2 : DB)
    (h : db2.attendance = db.attendance) (hinv : AtMostOnePerPair db) :
    AtMostOnePerPair db2 := by
  intro sid stud
  rw [h]
  exact hinv sid stud

/-- Exhaustive case analysis of the session manager: exactly one of the four
branches of `POST /api/session` applies. -/
theorem createSession_spec (db : DB) (now : Int) (facultyId sectionId : String)
    (dur : Option Int) (newId newToken : String) :
    ((facultyId == "" || sectionId == "") = true ∧
      createSession db now facultyId sectionId dur newId newToken =
        (Except.error SessionError.MissingFields, db)) ∨
    ((facultyId == "" || sectionId == "") = false ∧
      findFaculty db facultyId = none ∧
      createSession db now facultyId sectionId dur newId newToken =
        (Except.error SessionError.InvalidFaculty, db)) ∨
    (∃ u, (facultyId == "" || sectionId == "") = false ∧
      findFaculty db facultyId = some u ∧ findSection db sectionId = none ∧
      createSession db now facultyId sectionId dur newId newToken =
        (Except.error SessionError.InvalidSection, db)) ∨
    (∃ u sec, (facultyId == "" || sectionId == "") = false ∧
      findFaculty db facultyId = some u ∧ findSection db sectionId = some sec ∧
      createSession db now facultyId sectionId dur newId newToken =
        (Except.ok (⟨newId, sectionId, newToken, now,
            now + effectiveDuration dur * 60000⟩ : Session),
         { db with sessions := db.sessions ++
            [⟨newId, sectionId, newToken, now,
              now + effectiveDuration dur * 60000⟩] })) := by
  unfold createSession
  split
  · next h0 => exact Or.inl ⟨h0, rfl⟩
  · next h0 =>
    have h0f : (facultyId == "" || sectionId == "") = false := by simpa using h0
    split
    · next hf => exact Or.inr (Or.inl ⟨h0f, hf, rfl⟩)
    · next u hu =>
      split
      · next hsec => exact Or.inr (Or.inr (Or.inl ⟨u, h0f, hu, hsec, rfl⟩))
      · next sec hsec =>
        exact Or.inr (Or.inr (Or.inr ⟨u, sec, h0f, hu, hsec, rfl⟩))

/-- A successfully created session is exactly the row the handler builds:
`start_at = now`, `expires_at` from the (falsy-defaulted) duration. -/
theorem createSession_ok_facts (db : DB) (now : Int) (facultyId sectionId : String)
    (dur : Option Int) (newId newToken : String) (s : Session)
    (h : (createSession db now facultyId sectionId dur newId newToken).1 = Except.ok s) :
    s = ⟨newId, sectionId, newToken, now, now + effectiveDuration dur * 60000⟩ ∧
    (createSession db now facultyId sectionId dur newId newToken).2 =
      { db with sessions := db.sessions ++ [s] } := by
  rcases createSession_spec db now facultyId sectionId dur newId newToken with
    ⟨_, hc⟩ | ⟨_, _, hc⟩ | ⟨u, _, _, _, hc⟩ | ⟨u, sec, h0, hu, hsec, hc⟩
  · rw [hc] at h; simp at h
  · rw [hc] at h; simp at h
  · rw [hc] at h; simp at h
  · rw [hc] at h
    simp only [Except.ok.injEq] at h
    refine ⟨h.symm, ?_⟩
    rw [hc, h]

/-- After a successful check-in, repeating the same request (same session id,
token, student id, at the same time) hits the duplicate branch and leaves the
database unchanged. -/
theorem checkin_repeat_duplicate (db : DB) (now : Int)
    (sessionId token studentId recId recId2 : String) (a : Attendance)
    (h : (checkin db now sessionId token studentId recId).1 = Except.ok a) :
    (checkin (checkin db now sessionId token studentId recId).2
        now sessionId token studentId recId2).1 =
      Except.error CheckinError.DuplicateCheckin ∧
    (checkin (checkin db now sessionId token studentId recId).2
        now sessionId token studentId recId2).2 =
      (checkin db now sessionId token studentId recId).2 := by
  obtain ⟨h1, h2, h3, ⟨s, hs, htk, hexp⟩, ⟨u, hu⟩, hattnone, ha, hdb2⟩ :=
    checkin_ok_facts db now sessionId token studentId recId a h
  rw [hdb2]
  have hs2 : findSession { db with attendance := db.attendance ++ [a] } sessionId = some s := hs
  have hu2 : findStudent { db with attendance := db.attendance ++ [a] } studentId = some u := hu
  have hatt2 : findAttendance { db with attendance := db.attendance ++ [a] }
      sessionId studentId = some a := by
    unfold findAttendance at hattnone ⊢
    simp only [List.find?_append, hattnone, Option.none_or]
    subst ha
    simp [List.find?_cons]
  constructor
  · simp [checkin, h1, h2, h3, hs2, htk, hexp, hu2, hatt2]
  · simp [checkin, h1, h2, h3, hs2, htk, hexp, hu2, hatt2]

/-- The check-in handler preserves the attendance-uniqueness invariant. -/
theorem checkin_preserves_atMostOne (db : DB) (hinv : AtMostOnePerPair db)
    (now : Int) (sessionId token studentId recId : String) :
    AtMostOnePerPair (checkin db now sessionId token studentId recId).2 := by
  rcases hres : (checkin db now sessionId token studentId recId).1 with e | a
  · rw [checkin_error_unchanged db now sessionId token studentId recId e hres]
    exact hinv
  · obtain ⟨_, _, _, _, _, hattnone, ha, hdb2⟩ :=
      checkin_ok_facts db now sessionId token studentId recId a hres
    rw [hdb2]
    intro sid stud
    apply countP_le_one_append _ _ _ (hinv sid stud)
    intro hpa
    subst ha
    simp only [beq_iff_eq, Bool.and_eq_true] at hpa
    obtain ⟨hp1, hp2⟩ := hpa
    subst hp1
    subst hp2
    rw [List.countP_eq_zero]
    intro x hx
    unfold findAttendance at hattnone
    exact List.find?_eq_none.mp hattnone x hx

/-!  Claim theorems.  -/

/-- C1: with all three parameters supplied, the five validation checks of
`POST /api/checkin` run in the listed order (SessionNotFound, InvalidToken,
SessionExpired, StudentNotFound, DuplicateCheckin) and the first failing check
determines the reported error; in particular a wrong token reports
`InvalidToken` for every value of `now`, so an expired session with a wrong
token reports `InvalidToken`, never `SessionExpired`. -/
theorem checkin_first_failing_check (db : DB) (now : Int)
    (sessionId token studentId recId : String)
    (hsid : sessionId ≠ "") (htok : token ≠ "") (hstud : studentId ≠ "") :
    (findSession db sessionId = none →
      (checkin db now sessionId token studentId recId).1 =
        Except.error CheckinError.SessionNotFound) ∧
    (∀ s, findSession db sessionId = some s →
      (s.token ≠ token →
        (checkin db now sessionId token studentId recId).1 =
          Except.error CheckinError.InvalidToken) ∧
      (s.token = token → now > s.expires_at →
        (checkin db now sessionId token studentId recId).1 =
          Except.error CheckinError.SessionExpired) ∧
      (s.token = token → ¬ now > s.expires_at → findStudent db studentId = none →
        (checkin db now sessionId token studentId recId).1 =
          Except.error CheckinError.StudentNotFound) ∧
      (s.token = token → ¬ now > s.expires_at →
        ∀ u, findStudent db studentId = some u →
        ∀ a0, findAttendance db sessionId studentId = some a0 →
        (checkin db now sessionId token studentId recId).1 =
          Except.error CheckinError.DuplicateCheckin)) := by
  refine ⟨fun h0 => by simp [checkin, hsid, htok, hstud, h0],
    fun s hs => ⟨?_, ?_, ?_, ?_⟩⟩
  · intro hneq
    simp [checkin, hsid, htok, hstud, hs, hneq]
  · intro heq hexp
    simp [checkin, hsid, htok, hstud, hs, heq, hexp]
  · intro heq hexp hstu
    simp [checkin, hsid, htok, hstud, hs, heq, hexp, hstu]
  · intro heq hexp u hu a0 ha
    simp [checkin, hsid, htok, hstud, hs, heq, hexp, hu, ha]

/-- C1 witness: on the concrete database, a check-in against the session that
expired at 1000, performed at 2000 with a wrong token, reports `InvalidToken`. -/
theorem checkin_first_failing_check_witness :
    (2000 : Int) > demoSession.expires_at ∧
    (checkin demoDb 2000 "sess1" "bad" "stu1" "r1").1 =
      Except.error CheckinError.InvalidToken := by
  refine ⟨by decide, ?_⟩
  exact ((checkin_first_failing_check demoDb 2000 "sess1" "bad" "stu1" "r1"
    (by decide) (by decide) (by decide)).2 demoSession (by decide)).1 (by decide)

/-- C2 counterexample: the expiry check is strict (`Date.now() > expires_at`),
so a check-in with the correct token performed exactly at `expires_at`
does not report `SessionExpired` — it succeeds. -/
theorem checkin_at_exact_expiry_succeeds :
    (1000 : Int) ≥ demoSession.expires_at ∧
    demoSession.token = "tok1" ∧
    findSession demoDb "sess1" = some demoSession ∧
    (checkin demoDb 1000 "sess1" "tok1" "stu1" "r1").1 ≠
      Except.error CheckinError.SessionExpired ∧
    (checkin demoDb 1000 "sess1" "tok1" "stu1" "r1").1 =
      Except.ok (⟨"r1", "sess1", "stu1", "present", 1000, "qr"⟩ : Attendance) := by
  decide

/-- C2 amended: with all parameters supplied, an existing session and the
correct token, the check-in fails with `SessionExpired` exactly when the
current time is strictly greater than `expires_at`. -/
theorem checkin_expired_strictly_after (db : DB) (now : Int)
    (sessionId token studentId recId : String) (s : Session)
    (hsid : sessionId ≠ "") (htok : token ≠ "") (hstud : studentId ≠ "")
    (hs : findSession db sessionId = some s) (heq : s.token = token)
    (hexp : now > s.expires_at) :
    (checkin db now sessionId token studentId recId).1 =
      Except.error CheckinError.SessionExpired := by
  simp [checkin, hsid, htok, hstud, hs, heq, hexp]

/-- C2 amended witness: at time 1001, one tick past the expiry 1000, the
check-in with the correct token reports `SessionExpired`. -/
theorem checkin_expired_strictly_after_witness :
    (checkin demoDb 1001 "sess1" "tok1" "stu1" "r1").1 =
      Except.error CheckinError.SessionExpired :=
  checkin_expired_strictly_after demoDb 1001 "sess1" "tok1" "stu1" "r1" demoSession
    (by decide) (by decide) (by decide) (by decide) (by decide) (by decide)

/-- C5: every check-in that passes all five checks creates exactly one
attendance record — appended to the attendance table, with status `present`,
`checkin_time` the current timestamp, method `qr`, and the request's session
and student ids — and changes nothing else. -/
theorem checkin_success_creates_record (db : DB) (now : Int)
    (sessionId token studentId recId : String) (a : Attendance)
    (h : (checkin db now sessionId token studentId recId).1 = Except.ok a) :
    a.status = "present" ∧ a.checkin_time = now ∧ a.method = "qr" ∧
    a.session_id = sessionId ∧ a.student_id = studentId ∧ a.id = recId ∧
    (checkin db now sessionId token studentId recId).2.attendance =
      db.attendance ++ [a] ∧
    (checkin db now sessionId token studentId recId).2.users = db.users ∧
    (checkin db now sessionId token studentId recId).2.sections = db.sections ∧
    (checkin db now sessionId token studentId recId).2.sessions = db.sessions := by
  obtain ⟨_, _, _, _, _, _, ha, hdb2⟩ :=
    checkin_ok_facts db now sessionId token studentId recId a h
  subst ha
  rw [hdb2]
  exact ⟨rfl, rfl, rfl, rfl, rfl, rfl, rfl, rfl, rfl, rfl⟩

/-- C5 witness: the concrete successful check-in creates exactly the expected
`present`/`qr` row. -/
theorem checkin_success_creates_record_witness :
    (⟨"r1", "sess1", "stu1", "present", 1000, "qr"⟩ : Attendance).status = "present" ∧
    (checkin demoDb 1000 "sess1" "tok1" "stu1" "r1").2.attendance =
      demoDb.attendance ++ [⟨"r1", "sess1", "stu1", "present", 1000, "qr"⟩] := by
  have H := checkin_success_creates_record demoDb 1000 "sess1" "tok1" "stu1" "r1"
    (⟨"r1", "sess1", "stu1", "present", 1000, "qr"⟩ : Attendance) (by decide)
  exact ⟨H.1, H.2.2.2.2.2.2.1⟩

/-- C6: a session-creation request (fields supplied) whose faculty id does not
resolve to a user with role faculty fails with `InvalidFaculty` and creates no
session — the database is unchanged. -/
theorem createSession_invalid_faculty (db : DB) (now : Int)
    (facultyId sectionId : String) (dur : Option Int) (newId newToken : String)
    (hf : facultyId ≠ "") (hsec : sectionId ≠ "")
    (h : findFaculty db facultyId = none) :
    (createSession db now facultyId sectionId dur newId newToken).1 =
      Except.error SessionError.InvalidFaculty ∧
    (createSession db now facultyId sectionId dur newId newToken).2 = db := by
  constructor
  · simp [createSession, hf, hsec, h]
  · simp [createSession, hf, hsec, h]

/-- C6 witness: `stu1` exists but has role student, so it does not resolve as
faculty and session creation fails with `InvalidFaculty`, leaving the database
unchanged. -/
theorem createSession_invalid_faculty_witness :
    demoStudent ∈ demoDb.users ∧ demoStudent.role = "student" ∧
    (createSession demoDb 5 "stu1" "sec101" none "n1" "t1").1 =
      Except.error SessionError.InvalidFaculty ∧
    (createSession demoDb 5 "stu1" "sec101" none "n1" "t1").2 = demoDb := by
  have H := createSession_invalid_faculty demoDb 5 "stu1" "sec101" none "n1" "t1"
    (by decide) (by decide) (by decide)
  exact ⟨by decide, by decide, H.1, H.2⟩

/-- C7: every failed check-in (any of the six error outcomes) leaves the whole
database unchanged, and in general the attendance table is either untouched or
extended by exactly the one record of a successful check-in — existing records
are never modified. -/
theorem checkin_failure_no_record (db : DB) (now : Int)
    (sessionId token studentId recId : String) :
    (∀ e, (checkin db now sessionId token studentId recId).1 = Except.error e →
      (checkin db now sessionId token studentId recId).2 = db) ∧
    ((checkin db now sessionId token studentId recId).2.attendance = db.attendance ∨
      ∃ a, (checkin db now sessionId token studentId recId).1 = Except.ok a ∧
        (checkin db now sessionId token studentId recId).2.attendance =
          db.attendance ++ [a]) := by
  constructor
  · intro e he
    exact checkin_error_unchanged db now sessionId token studentId recId e he
  · rcases hres : (checkin db now sessionId token studentId recId).1 with e | a
    · left
      rw [checkin_error_unchanged db now sessionId token studentId recId e hres]
    · right
      obtain ⟨_, _, _, _, _, _, _, hdb2⟩ :=
        checkin_ok_facts db now sessionId token studentId recId a hres
      exact ⟨a, rfl, by rw [hdb2]⟩

/-- C7 witness: the concrete duplicate-token failure leaves the database
unchanged. -/
theorem checkin_failure_no_record_witness :
    (checkin demoDb 2000 "sess1" "bad" "stu1" "r1").2 = demoDb :=
  (checkin_failure_no_record demoDb 2000 "sess1" "bad" "stu1" "r1").1
    CheckinError.InvalidToken (by decide)

/-- C3: if at most one attendance record exists per (session_id, student_id)
pair, every operation preserves that invariant; and after a successful
check-in, repeating the identical request reports `DuplicateCheckin` and
creates no new record. -/
theorem attendance_at_most_one_invariant (db : DB) (hinv : AtMostOnePerPair db)
    (now : Int)
    (sessionId token studentId recId recId2 : String)
    (facultyId sectionId newId newToken : String) (dur : Option Int)
    (addId addName delId : String) :
    AtMostOnePerPair (checkin db now sessionId token studentId recId).2 ∧
    (∀ a, (checkin db now sessionId token studentId recId).1 = Except.ok a →
      (checkin (checkin db now sessionId token studentId recId).2
          now sessionId token studentId recId2).1 =
        Except.error CheckinError.DuplicateCheckin ∧
      (checkin (checkin db now sessionId token studentId recId).2
          now sessionId token studentId recId2).2 =
        (checkin db now sessionId token studentId recId).2) ∧
    AtMostOnePerPair (createSession db now facultyId sectionId dur newId newToken).2 ∧
    AtMostOnePerPair (facultyAdd db addId addName).2 ∧
    AtMostOnePerPair (facultyDelete db delId).2 := by
  refine ⟨checkin_preserves_atMostOne db hinv now sessionId token studentId recId,
    fun a ha => checkin_repeat_duplicate db now sessionId token studentId recId recId2 a ha,
    atMostOne_of_attendance_eq db _
      (createSession_attendance_unchanged db now facultyId sectionId dur newId newToken) hinv,
    atMostOne_of_attendance_eq db _ (facultyAdd_attendance_unchanged db addId addName) hinv,
    atMostOne_of_attendance_eq db _ rfl hinv⟩

/-- C3 witness: starting from the seeded database (which satisfies the
invariant), the concrete check-in keeps it, and the identical second request
reports `DuplicateCheckin`. -/
theorem attendance_at_most_one_invariant_witness :
    AtMostOnePerPair (checkin demoDb 1000 "sess1" "tok1" "stu1" "r1").2 ∧
    (checkin (checkin demoDb 1000 "sess1" "tok1" "stu1" "r1").2
        1000 "sess1" "tok1" "stu1" "r2").1 =
      Except.error CheckinError.DuplicateCheckin := by
  have H := attendance_at_most_one_invariant demoDb
    (by intro sid stud; simp [AtMostOnePerPair, demoDb]) 1000
    "sess1" "tok1" "stu1" "r1" "r2" "faculty1" "sec101" "n1" "t1" none "f2" "Fred" "x"
  exact ⟨H.1, (H.2.1 (⟨"r1", "sess1", "stu1", "present", 1000, "qr"⟩ : Attendance)
    (by decide)).1⟩

/-- C4 counterexample: a requested duration of 0 is falsy in
`durationMinutes || 30`, so the session is created with the default 30-minute
expiry, not `start_at + 0 * 60000`. -/
theorem createSession_zero_duration_counterexample :
    (createSession demoDb 5 "faculty1" "sec101" (some 0) "n1" "t1").1 =
      Except.ok (⟨"n1", "sec101", "t1", 5, 1800005⟩ : Session) ∧
    (1800005 : Int) ≠ 5 + 0 * 60000 := by
  decide

/-- C4 amended: every created session has `start_at = now` and
`expires_at = start_at + effectiveDuration * 60000`, where the effective
duration is the requested one when it is supplied and nonzero, and 30 when it
is missing or 0 (the JS falsy default). -/
theorem createSession_expiry_formula (db : DB) (now : Int)
    (facultyId sectionId : String) (dur : Option Int) (newId newToken : String)
    (s : Session)
    (h : (createSession db now facultyId sectionId dur newId newToken).1 =
      Except.ok s) :
    s.start_at = now ∧
    s.expires_at = s.start_at + effectiveDuration dur * 60000 ∧
    (∀ d : Int, dur = some d → d ≠ 0 → s.expires_at = s.start_at + d * 60000) ∧
    (dur = none → s.expires_at = s.start_at + 30 * 60000) ∧
    (dur = some 0 → s.expires_at = s.start_at + 30 * 60000) := by
  obtain ⟨hsess, -⟩ :=
    createSession_ok_facts db now facultyId sectionId dur newId newToken s h
  subst hsess
  refine ⟨rfl, rfl, ?_, ?_, ?_⟩
  · intro d hd hd0
    subst hd
    simp [effectiveDuration, hd0]
  · intro hd
    subst hd
    rfl
  · intro hd
    subst hd
    rfl

/-- C4 amended witness: a 2-minute session created at time 5 expires at
5 + 120000. -/
theorem createSession_expiry_formula_witness :
    (createSession demoDb 5 "faculty1" "sec101" (some 2) "n1" "t1").1 =
      Except.ok (⟨"n1", "sec101", "t1", 5, 120005⟩ : Session) ∧
    (⟨"n1", "sec101", "t1", 5, 120005⟩ : Session).expires_at = 5 + 2 * 60000 := by
  have H := createSession_expiry_formula demoDb 5 "faculty1" "sec101" (some 2)
    "n1" "t1" (⟨"n1", "sec101", "t1", 5, 120005⟩ : Session) (by decide)
  refine ⟨by decide, ?_⟩
  have h2 := H.2.2.1 2 rfl (by decide)
  rw [H.1] at h2
  exact h2

/-- C8 counterexample: an unknown student id makes `POST /api/checkin` answer
with HTTP status 403 (`res.status(403).json({error:'Student not found'})`),
which is neither 404 nor 400. -/
theorem student_not_found_status_counterexample :
    findStudent demoDb "ghost" = none ∧
    (checkin demoDb 500 "sess1" "tok1" "ghost" "r1").1 =
      Except.error CheckinError.StudentNotFound ∧
    checkinStatus (checkin demoDb 500 "sess1" "tok1" "ghost" "r1").1 = 403 ∧
    ¬(checkinStatus (checkin demoDb 500 "sess1" "tok1" "ghost" "r1").1 = 404 ∨
      checkinStatus (checkin demoDb 500 "sess1" "tok1" "ghost" "r1").1 = 400) := by
  decide

/-- C8 amended: an unknown student is surfaced with status 403 — the same
bucket as the wrong-token and expired-session conflicts — while an unknown
session gets 404, a duplicate check-in 409, missing parameters 400, and a
success 200. -/
theorem checkin_status_codes (db : DB) (now : Int)
    (sessionId token studentId recId : String) (s : Session)
    (hsid : sessionId ≠ "") (htok : token ≠ "") (hstud : studentId ≠ "")
    (hs : findSession db sessionId = some s) (heq : s.token = token)
    (hexp : ¬ now > s.expires_at) (hstu : findStudent db studentId = none) :
    checkinStatus (checkin db now sessionId token studentId recId).1 = 403 ∧
    checkinErrorStatus CheckinError.SessionNotFound = 404 ∧
    checkinErrorStatus CheckinError.InvalidToken = 403 ∧
    checkinErrorStatus CheckinError.SessionExpired = 403 ∧
    checkinErrorStatus CheckinError.DuplicateCheckin = 409 ∧
    checkinErrorStatus CheckinError.MissingParams = 400 := by
  refine ⟨?_, rfl, rfl, rfl, rfl, rfl⟩
  have hres : (checkin db now sessionId token studentId recId).1 =
      Except.error CheckinError.StudentNotFound := by
    simp [checkin, hsid, htok, hstud, hs, heq, hexp, hstu]
  rw [hres]
  rfl

/-- C8 amended witness: the concrete unknown-student request is answered
with 403. -/
theorem checkin_status_codes_witness :
    checkinStatus (checkin demoDb 500 "sess1" "tok1" "ghost" "r1").1 = 403 :=
  (checkin_status_codes demoDb 500 "sess1" "tok1" "ghost" "r1" demoSession
    (by decide) (by decide) (by decide) (by decide) (by decide) (by decide)
    (by decide)).1

/-- C9: a CSV export whose (non-empty) section filter matches no sessions
answers `No sessions` rather than an error, and so does an unfiltered export
when no sessions exist at all. -/
theorem reportCsv_no_matching_sessions (db : DB) (sec : String)
    (hsec : sec ≠ "")
    (hfil : db.sessions.filter (fun s => s.section_id == sec) = []) :
    reportCsv db (some sec) = CsvResult.noSessions ∧
    (db.sessions = [] → reportCsv db none = CsvResult.noSessions) := by
  constructor
  · simp [reportCsv, hsec, hfil]
  · intro h
    simp [reportCsv, h]

/-- C9 witness: filtering the concrete database by an unknown section id
returns `No sessions`. -/
theorem reportCsv_no_matching_sessions_witness :
    reportCsv demoDb (some "nope") = CsvResult.noSessions :=
  (reportCsv_no_matching_sessions demoDb "nope" (by decide) (by decide)).1

/-- C10: the faculty-delete endpoint reports success unconditionally, leaves
sections, sessions and attendance untouched, keeps every user with role
student, removes only users whose role is faculty and whose id matches, and
leaves the database entirely unchanged when no faculty user with that id
exists. -/
theorem facultyDelete_only_faculty (db : DB) (id : String) :
    (facultyDelete db id).1 = true ∧
    (facultyDelete db id).2.sections = db.sections ∧
    (facultyDelete db id).2.sessions = db.sessions ∧
    (facultyDelete db id).2.attendance = db.attendance ∧
    (∀ u, u ∈ db.users → u.role = "student" → u ∈ (facultyDelete db id).2.users) ∧
    (∀ u, u ∈ db.users → u ∉ (facultyDelete db id).2.users →
      u.role = "faculty" ∧ u.id = id) ∧
    (findFaculty db id = none → (facultyDelete db id).2 = db) := by
  refine ⟨rfl, rfl, rfl, rfl, ?_, ?_, ?_⟩
  · intro u hu hrole
    apply List.mem_filter.mpr
    refine ⟨hu, ?_⟩
    simp [hrole]
  · intro u hu hnot
    have hne : ¬(u ∈ db.users ∧ (!(u.id == id && u.role == "faculty")) = true) :=
      fun hc => hnot (List.mem_filter.mpr hc)
    simp only [hu, true_and, Bool.not_eq_true', Bool.not_eq_false,
      Bool.and_eq_true, beq_iff_eq] at hne
    exact ⟨hne.2, hne.1⟩
  · intro hnone
    have hall := List.find?_eq_none.mp hnone
    have hfil : db.users.filter (fun u => !(u.id == id && u.role == "faculty")) =
        db.users := by
      apply List.filter_eq_self.mpr
      intro u hu
      have h2 := hall u hu
      simp at h2 ⊢
      tauto
    show { db with
      users := db.users.filter (fun u => !(u.id == id && u.role == "faculty")) } = db
    rw [hfil]

/-- C10 witness: deleting id `stu1` keeps the student row, reports success, and
since no faculty user has that id, the database is unchanged. -/
theorem facultyDelete_only_faculty_witness :
    demoStudent ∈ (facultyDelete demoDb "stu1").2.users ∧
    (facultyDelete demoDb "stu1").1 = true ∧
    (facultyDelete demoDb "stu1").2 = demoDb := by
  have H := facultyDelete_only_faculty demoDb "stu1"
  exact ⟨H.2.2.2.2.1 demoStudent (by decide) (by decide), H.1,
    H.2.2.2.2.2.2 (by decide)⟩

end Attend
